import Mathlib

/-!
Verification of the voice-embedding microservice (`src/voice-embed/main.py`).

The pipeline is embedded shallowly: audio samples are rationals (the Python
floats, taken exactly), byte payloads are lists of naturals, and the two
external collaborators — the audio decoder (`torchaudio.load`) and the
speaker-embedding model (`model.encode_batch`) — are parameters of the
service functions, as the spec treats them as opaque black boxes.
`np.linalg.norm` is irrational-valued in general, so the norm is passed as a
parameter `normF`; theorems that need its value characterise it by its
defining property (nonnegative, square equal to the sum of squares).
-/

deriving instance DecidableEq for Except

namespace VoiceEmbed

/-- A decoded waveform as produced by `torchaudio.load`: a list of channels
(each a list of samples) together with the sample rate. -/
structure Waveform where
  channels : List (List ℚ)
  sampleRate : ℕ
  deriving DecidableEq

/-- Sum of squares of a vector; `n` is the L2 norm of `v` precisely when
`0 ≤ n` and `n * n = sumSq v`. -/
def sumSq (v : List ℚ) : ℚ := (v.map (fun x => x * x)).sum

/-- Postprocessing step of `generate_embedding` (main.py line 105):
`embedding_np / (np.linalg.norm(embedding_np) + 1e-8)`, with the value of
`np.linalg.norm` passed in as `n`. -/
def l2normalize (v : List ℚ) (n : ℚ) : List ℚ :=
  v.map (fun x => x / (n + 1 / 100000000))

/-- `torch.max(torch.abs(waveform))` (main.py line 82). The fold starts at 0,
which agrees with the torch maximum on every non-empty waveform since
absolute values are nonnegative. -/
def maxAbs (l : List ℚ) : ℚ := l.foldr (fun x m => max |x| m) 0

/-- Peak normalization (main.py line 82):
`waveform / (torch.max(torch.abs(waveform)) + 1e-8)`. -/
def peakNormalize (l : List ℚ) : List ℚ :=
  l.map (fun x => x / (maxAbs l + 1 / 100000000))

/-- `torch.mean(waveform, dim=0)` (main.py line 74): sample-wise average of
all channels. -/
def monoAvg (chans : List (List ℚ)) : List ℚ :=
  (List.range (chans.headD []).length).map
    (fun i => (chans.map (fun c => c.getD i 0)).sum / chans.length)

/-- The single channel of a mono waveform (the `squeeze(0)` view). -/
def firstChannel (w : Waveform) : List ℚ := w.channels.headD []

/-- Body of `preprocess_audio` (main.py lines 73-84) after decoding: collapse
to mono when more than one channel, resample when the rate is not 16000
(`res`, standing for `torchaudio.transforms.Resample`, is external), then
peak-normalize. -/
def preprocess_audio_core (res : ℕ → List ℚ → List ℚ) (w : Waveform) : List ℚ :=
  let mono := if w.channels.length > 1 then monoAvg w.channels else firstChannel w
  let resampled := if w.sampleRate ≠ 16000 then res w.sampleRate mono else mono
  peakNormalize resampled

/-- The mono step of the preprocessor in isolation (main.py lines 73-74). -/
def monoStep (w : Waveform) : Waveform :=
  if w.channels.length > 1 then ⟨[monoAvg w.channels], w.sampleRate⟩ else w

/-- The resampling step of the preprocessor in isolation (main.py lines 77-79). -/
def resampleStep (res : ℕ → List ℚ → List ℚ) (w : Waveform) : Waveform :=
  if w.sampleRate ≠ 16000 then ⟨[res w.sampleRate (firstChannel w)], 16000⟩ else w

/-- An HTTP error response (`HTTPException`): status code and detail string. -/
structure HErr where
  status : ℕ
  detail : String
  deriving DecidableEq

/-- Response model of `/embed` (`EmbeddingResponse`). -/
structure EmbedResponse where
  embedding : List ℚ
  success : Bool
  message : String
  deriving DecidableEq

/-- Response of `/embed-raw`: embedding, success flag and dimension. -/
structure RawResponse where
  embedding : List ℚ
  success : Bool
  dimension : ℕ
  deriving DecidableEq

/-- The audio decoder (`torchaudio.load`): bytes to waveform, or an
exception message. Opaque external dependency, hence a parameter. -/
def Decoder := List ℕ → Except String Waveform

/-- `preprocess_audio` (main.py lines 61-88): decode the bytes; on any
decoding exception `e` raise 400 with detail `"Audio preprocessing failed: e"`;
otherwise run the mono/resample/normalize pipeline. -/
def preprocess_audio (dec : Decoder) (res : ℕ → List ℚ → List ℚ)
    (b : List ℕ) : Except HErr (List ℚ) :=
  match dec b with
  | .error e => .error ⟨400, "Audio preprocessing failed: " ++ e⟩
  | .ok w => .ok (preprocess_audio_core res w)

/-- `generate_embedding` (main.py lines 90-111). When the model handle is
`none` the function raises `HTTPException(500, "Model not loaded")`, which
its own `except Exception` clause rewraps as 500
`"Embedding generation failed: 500: Model not loaded"`. Otherwise the raw
model output is L2-normalized with `np.linalg.norm` (the `normF` parameter). -/
def generate_embedding (m : Option (List ℚ → List ℚ)) (normF : List ℚ → ℚ)
    (w : List ℚ) : Except HErr (List ℚ) :=
  match m with
  | none => .error ⟨500, "Embedding generation failed: 500: Model not loaded"⟩
  | some f => .ok (l2normalize (f w) (normF (f w)))

/-- The content-type test of `/embed` (main.py line 137):
`file.content_type` truthy and starting with `"audio/"`. An empty string is
falsy in Python and also fails `startswith`, so the two agree. -/
def contentTypeOk (ct : Option String) : Bool :=
  match ct with
  | none => false
  | some s => List.isPrefixOf "audio/".data s.data

/-- Rounding used by Python float formatting `:.2f` of `n / 16000`, taken on
the exact rational `n / 160` in hundredths: round half to even. -/
def round2 (n : ℕ) : ℕ :=
  let q := n / 160
  let r := n % 160
  if 2 * r < 160 then q
  else if 160 < 2 * r then q + 1
  else if q % 2 = 0 then q else q + 1

/-- Two-digit zero-padded rendering of the fractional hundredths. -/
def pad2 (c : ℕ) : String := if c < 10 then "0" ++ toString c else toString c

/-- `f"{len(waveform)/16000:.2f}"` (main.py line 157): the duration in
seconds of `n` samples at 16 kHz, formatted with two decimals. -/
def fmt2 (n : ℕ) : String :=
  toString (round2 n / 100) ++ "." ++ pad2 (round2 n % 100)

/-- The 400 detail of `/embed` for too-short audio (main.py line 157),
reporting the actual duration. -/
def tooShortMsgEmbed (n : ℕ) : String :=
  "Audio too short. Minimum 0.5 seconds required, got " ++ fmt2 n ++ " seconds"

/-- The 400 content-type error of `/embed` (main.py lines 138-141). -/
def ctErr : HErr := ⟨400, "File must be an audio file (WAV preferred)"⟩

/-- `create_embedding`, the `/embed` handler (main.py lines 127-177).
Checks run in source order: content type, emptiness, decode/preprocess,
minimum duration, inference. The boolean paired with the response records
whether the dimension-mismatch warning (main.py lines 164-165) was logged. -/
def create_embedding (dec : Decoder) (res : ℕ → List ℚ → List ℚ)
    (m : Option (List ℚ → List ℚ)) (normF : List ℚ → ℚ)
    (ct : Option String) (body : List ℕ) : Except HErr (EmbedResponse × Bool) :=
  if contentTypeOk ct = false then .error ctErr
  else if body.length = 0 then .error ⟨400, "Empty audio file"⟩
  else match preprocess_audio dec res body with
    | .error e => .error e
    | .ok w =>
      if w.length < 8000 then .error ⟨400, tooShortMsgEmbed w.length⟩
      else match generate_embedding m normF w with
        | .error e => .error e
        | .ok emb =>
          .ok (⟨emb, true,
                "Successfully generated " ++ toString emb.length ++
                  "-dimensional embedding"⟩,
               emb.length != 192)

/-- `create_embedding_raw`, the `/embed-raw` handler (main.py lines 179-212).
No content-type check, a fixed too-short message, and no dimensionality
check at all (the paired warning boolean is always `false`). -/
def create_embedding_raw (dec : Decoder) (res : ℕ → List ℚ → List ℚ)
    (m : Option (List ℚ → List ℚ)) (normF : List ℚ → ℚ)
    (body : List ℕ) : Except HErr (RawResponse × Bool) :=
  if body.length = 0 then .error ⟨400, "Empty audio data"⟩
  else match preprocess_audio dec res body with
    | .error e => .error e
    | .ok w =>
      if w.length < 8000 then
        .error ⟨400, "Audio too short. Minimum 0.5 seconds required"⟩
      else match generate_embedding m normF w with
        | .error e => .error e
        | .ok emb => .ok (⟨emb, true, emb.length⟩, false)

/-- Boolean substring test on character lists: does `pat` occur
contiguously? -/
def subAt (pat : List Char) : List Char → Bool
  | [] => pat.isEmpty
  | c :: t => pat.isPrefixOf (c :: t) || subAt pat t

/-- Boolean substring test on strings (case-sensitive). -/
def containsStr (s pat : String) : Bool := subAt pat.data s.data

/-! ### Arithmetic facts about the normalizations -/

lemma sumSq_cons (a : ℚ) (t : List ℚ) : sumSq (a :: t) = a * a + sumSq t := by
  simp [sumSq]

lemma sumSq_nonneg (v : List ℚ) : 0 ≤ sumSq v := by
  induction v with
  | nil => simp [sumSq]
  | cons a t ih =>
    rw [sumSq_cons]
    have := mul_self_nonneg a
    linarith

lemma sumSq_map_div (v : List ℚ) (c : ℚ) :
    sumSq (v.map (fun x => x / c)) = sumSq v / (c * c) := by
  induction v with
  | nil => simp [sumSq]
  | cons a t ih =>
    rw [List.map_cons, sumSq_cons, sumSq_cons, ih, div_mul_div_comm,
      div_add_div_same]

lemma mem_sq_le_sumSq {x : ℚ} {v : List ℚ} (h : x ∈ v) : x * x ≤ sumSq v := by
  induction v with
  | nil => cases h
  | cons a t ih =>
    rw [sumSq_cons]
    rcases List.mem_cons.mp h with rfl | h2
    · have := sumSq_nonneg t
      linarith
    · have h3 := ih h2
      have := mul_self_nonneg a
      linarith

lemma maxAbs_cons (a : ℚ) (t : List ℚ) : maxAbs (a :: t) = max |a| (maxAbs t) := rfl

lemma maxAbs_nonneg (l : List ℚ) : 0 ≤ maxAbs l := by
  induction l with
  | nil => exact le_refl 0
  | cons a t ih =>
    rw [maxAbs_cons]
    exact le_trans ih (le_max_right _ _)

lemma abs_le_maxAbs {x : ℚ} {l : List ℚ} (h : x ∈ l) : |x| ≤ maxAbs l := by
  induction l with
  | nil => cases h
  | cons a t ih =>
    rw [maxAbs_cons]
    rcases List.mem_cons.mp h with rfl | h2
    · exact le_max_left _ _
    · exact le_trans (ih h2) (le_max_right _ _)

/-! ### Claims -/

/-- Claim C1. The vector returned to the client is the raw model output
divided by its L2 norm plus `1e-8`, and whenever the raw vector is a genuine
embedding (its L2 norm `n` at least `1e-3`, in particular any unit-scale
model output on valid audio), the L2 norm `nn` of the returned vector
satisfies `|nn - 1| < 1e-5`. The norms are characterised by being
nonnegative with square equal to the sum of squares. -/
theorem c1_postprocess_unit_norm (v : List ℚ) (n nn : ℚ)
    (hn : 0 ≤ n) (hsq : n * n = sumSq v) (hb : 1 / 1000 ≤ n)
    (hnn : 0 ≤ nn) (hnnsq : nn * nn = sumSq (l2normalize v n)) :
    l2normalize v n = v.map (fun x => x / (n + 1 / 100000000)) ∧
      |nn - 1| < 1 / 100000 := by
  constructor
  · rfl
  · have hc : (0 : ℚ) < n + 1 / 100000000 := by linarith
    have h1 : nn * nn = (n / (n + 1 / 100000000)) * (n / (n + 1 / 100000000)) := by
      rw [hnnsq, l2normalize, sumSq_map_div, ← hsq, div_mul_div_comm]
    have hq : nn = n / (n + 1 / 100000000) :=
      (mul_self_inj_of_nonneg hnn (by positivity)).mp h1
    have h2 : nn - 1 = -((1 / 100000000) / (n + 1 / 100000000)) := by
      rw [hq]
      field_simp
    rw [h2, abs_neg, abs_of_pos (div_pos (by norm_num) hc), div_lt_iff₀ hc]
    linarith

/-- Witness for C1 at the one-dimensional raw vector `[1]`, whose L2 norm
is `1`; the normalized vector is `[1e8/(1e8+1)]` with norm `1e8/(1e8+1)`. -/
theorem c1_postprocess_unit_norm_witness :
    l2normalize [1] 1 = [(1 : ℚ)].map (fun x => x / (1 + 1 / 100000000)) ∧
      |(100000000 / 100000001 : ℚ) - 1| < 1 / 100000 :=
  c1_postprocess_unit_norm [1] 1 (100000000 / 100000001) (by norm_num)
    (by norm_num [sumSq]) (by norm_num) (by norm_num)
    (by norm_num [l2normalize, sumSq])

/-- Claim C8. The postprocessing normalization is idempotent within
tolerance: on a vector that already has unit L2 norm (sum of squares `1`,
norm `1`), every returned sample differs from the original by less than
`1e-5` (in fact by at most `1e-8`). -/
theorem c8_normalize_idempotent (v : List ℚ) (hsum : sumSq v = 1) :
    List.Forall₂ (fun y x => |y - x| < 1 / 100000) (l2normalize v 1) v := by
  rw [l2normalize, List.forall₂_map_left_iff, List.forall₂_same]
  intro x hx
  have hx1 : |x| ≤ 1 :=
    abs_le_one_iff_mul_self_le_one.mpr (le_of_le_of_eq (mem_sq_le_sumSq hx) hsum)
  have h : x / (1 + 1 / 100000000) - x = -(x / 100000001) := by ring
  rw [h, abs_neg, abs_div]
  have : |(100000001 : ℚ)| = 100000001 := by norm_num
  rw [this]
  rw [div_lt_iff₀ (by norm_num)]
  linarith

/-- Witness for C8 at the unit-norm vector `[1]`. -/
theorem c8_normalize_idempotent_witness :
    sumSq [1] = 1 ∧
      List.Forall₂ (fun y x => |y - x| < 1 / 100000) (l2normalize [1] 1) [1] :=
  ⟨by norm_num [sumSq], c8_normalize_idempotent [1] (by norm_num [sumSq])⟩

/-- Claim C9. Every sample produced by peak normalization has absolute
value strictly below `1`: each sample is divided by the maximum absolute
sample value plus `1e-8`, which strictly exceeds every sample magnitude.
This holds for every waveform, the all-zero one included. -/
theorem c9_peak_normalized_lt_one (l : List ℚ) (y : ℚ)
    (hy : y ∈ peakNormalize l) : |y| < 1 := by
  obtain ⟨x, hx, rfl⟩ := List.mem_map.mp hy
  have hM : 0 ≤ maxAbs l := maxAbs_nonneg l
  have hxM : |x| ≤ maxAbs l := abs_le_maxAbs hx
  have hc : (0 : ℚ) < maxAbs l + 1 / 100000000 := by linarith
  rw [abs_div, abs_of_pos hc, div_lt_one hc]
  linarith

/-- Witness for C9: the peak-normalized form of the waveform `[1]` contains
`1e8/(1e8+1)`, whose absolute value is below `1`. -/
theorem c9_peak_normalized_lt_one_witness :
    (100000000 / 100000001 : ℚ) ∈ peakNormalize [1] ∧
      |(100000000 / 100000001 : ℚ)| < 1 :=
  ⟨by norm_num [peakNormalize, maxAbs],
    c9_peak_normalized_lt_one [1] _ (by norm_num [peakNormalize, maxAbs])⟩

/-- Claim C4. The preprocessor is exactly the composition, in order, of the
mono step (average the channels when there are more than one), the
resampling step (only when the rate is not 16000), and peak normalization;
a waveform that is already mono at 16000 Hz is only peak-normalized,
whatever the resampler does. -/
theorem c4_preprocess_steps (res : ℕ → List ℚ → List ℚ) (w : Waveform) :
    preprocess_audio_core res w =
        peakNormalize (firstChannel (resampleStep res (monoStep w))) ∧
      (w.channels.length = 1 → w.sampleRate = 16000 →
        preprocess_audio_core res w = peakNormalize (firstChannel w)) := by
  constructor
  · by_cases h1 : w.channels.length > 1 <;> by_cases h2 : w.sampleRate ≠ 16000 <;>
      simp [preprocess_audio_core, monoStep, resampleStep, firstChannel, h1, h2]
  · intro h1 h2
    simp [preprocess_audio_core, h1, h2]

/-- Witness for C4: a one-channel 16 kHz waveform is only peak-normalized. -/
theorem c4_preprocess_steps_witness :
    preprocess_audio_core (fun _ l => l) ⟨[[1, 2]], 16000⟩ =
      peakNormalize (firstChannel ⟨[[1, 2]], 16000⟩) :=
  (c4_preprocess_steps (fun _ l => l) ⟨[[1, 2]], 16000⟩).2 rfl rfl

/-! ### Service-layer facts -/

lemma preprocess_msg_ne_ct (e : String) :
    "Audio preprocessing failed: " ++ e ≠
      "File must be an audio file (WAV preferred)" := by
  intro h
  have h2 := congrArg String.data h
  rw [String.data_append] at h2
  simp at h2

lemma tooShort_msg_ne_ct (n : ℕ) :
    tooShortMsgEmbed n ≠ "File must be an audio file (WAV preferred)" := by
  intro h
  have h2 := congrArg String.data h
  rw [tooShortMsgEmbed, String.data_append, String.data_append] at h2
  simp at h2

/-- With an acceptable content type, `/embed` never answers with the
content-type error, whatever the other stages do. -/
lemma create_embedding_ne_ctErr (dec : Decoder) (res : ℕ → List ℚ → List ℚ)
    (m : Option (List ℚ → List ℚ)) (normF : List ℚ → ℚ)
    (ct : Option String) (body : List ℕ) (hct : contentTypeOk ct = true) :
    create_embedding dec res m normF ct body ≠ .error ctErr := by
  by_cases hb : body.length = 0
  · simp [create_embedding, hct, hb, ctErr]
  · cases hdb : dec body with
    | error e =>
      simp [create_embedding, preprocess_audio, hct, hb, hdb, ctErr,
        preprocess_msg_ne_ct e]
    | ok wv =>
      by_cases hw : (preprocess_audio_core res wv).length < 8000
      · simp [create_embedding, preprocess_audio, hct, hb, hdb, hw, ctErr,
          tooShort_msg_ne_ct]
      · cases m with
        | none =>
          simp [create_embedding, preprocess_audio, generate_embedding,
            hct, hb, hdb, hw, ctErr]
        | some f =>
          simp [create_embedding, preprocess_audio, generate_embedding,
            hct, hb, hdb, hw]

/-- Counterexample to claim C3 as stated: the content-type tag is absent
(`none`), yet `/embed` rejects with the 400 content-type error — Python
treats a missing `content_type` as falsy, so the code also rejects when the
tag is not present, not only when it is present and non-audio. -/
theorem c3_content_type_counterexample :
    create_embedding (fun _ => .ok ⟨[[1]], 16000⟩) (fun _ l => l) none
      (fun _ => 0) none [1] = .error ctErr := rfl

/-- Claim C3 amended. `/embed` answers with the 400 content-type error
exactly when the tag is absent, empty, or does not begin with `"audio/"`
(that is, when `contentTypeOk` fails); and in that case the answer is the
same for every decoder, resampler, model and norm — the rejection happens
before any decoding is attempted. -/
theorem c3_content_type_amended (dec : Decoder) (res : ℕ → List ℚ → List ℚ)
    (m : Option (List ℚ → List ℚ)) (normF : List ℚ → ℚ)
    (ct : Option String) (body : List ℕ) :
    (create_embedding dec res m normF ct body = .error ctErr ↔
        contentTypeOk ct = false) ∧
      (contentTypeOk ct = false →
        ∀ (dec2 : Decoder) (res2 : ℕ → List ℚ → List ℚ)
          (m2 : Option (List ℚ → List ℚ)) (normF2 : List ℚ → ℚ),
          create_embedding dec2 res2 m2 normF2 ct body = .error ctErr) := by
  constructor
  · cases hb : contentTypeOk ct
    · exact iff_of_true (by simp [create_embedding, hb]) rfl
    · exact iff_of_false
        (create_embedding_ne_ctErr dec res m normF ct body hb) (by simp)
  · intro h dec2 res2 m2 normF2
    simp [create_embedding, h]

/-- Witness for C3 amended: a `text/plain` upload is rejected with the
content-type error. -/
theorem c3_content_type_amended_witness :
    create_embedding (fun _ => .ok ⟨[[1]], 16000⟩) (fun _ l => l) none
      (fun _ => 0) (some "text/plain") [1] = .error ctErr :=
  ((c3_content_type_amended (fun _ => .ok ⟨[[1]], 16000⟩) (fun _ l => l) none
    (fun _ => 0) (some "text/plain") [1]).1).mpr (by decide)

/-- Counterexample to claim C2 as stated: two decoded inputs of different
durations (16 and 32 samples at 16 kHz) are both rejected by `/embed-raw`
with the identical fixed message, so the `/embed-raw` message does not
report the actual duration. -/
theorem c2_raw_short_counterexample :
    create_embedding_raw (fun _ => .ok ⟨[List.replicate 16 0], 16000⟩)
        (fun _ l => l) none (fun _ => 0) [1] =
      .error ⟨400, "Audio too short. Minimum 0.5 seconds required"⟩ ∧
    create_embedding_raw (fun _ => .ok ⟨[List.replicate 32 0], 16000⟩)
        (fun _ l => l) none (fun _ => 0) [1] =
      .error ⟨400, "Audio too short. Minimum 0.5 seconds required"⟩ ∧
    (16 : ℚ) / 16000 < (32 : ℚ) / 16000 := by
  refine ⟨?_, ?_, by norm_num⟩ <;>
    simp [create_embedding_raw, preprocess_audio, preprocess_audio_core,
      firstChannel, peakNormalize]

/-- Claim C2 amended. When the preprocessed waveform is shorter than 8000
samples both endpoints answer 400, but only `/embed` reports the actual
duration (`len/16000` formatted to two decimals) in its message;
`/embed-raw` answers with the fixed message
`"Audio too short. Minimum 0.5 seconds required"` without the duration. -/
theorem c2_short_audio_amended (dec : Decoder) (res : ℕ → List ℚ → List ℚ)
    (m : Option (List ℚ → List ℚ)) (normF : List ℚ → ℚ)
    (ct : Option String) (body : List ℕ) (w : List ℚ)
    (hct : contentTypeOk ct = true) (hbody : body.length ≠ 0)
    (hdec : preprocess_audio dec res body = .ok w) (hshort : w.length < 8000) :
    create_embedding dec res m normF ct body =
        .error ⟨400, tooShortMsgEmbed w.length⟩ ∧
      create_embedding_raw dec res m normF body =
        .error ⟨400, "Audio too short. Minimum 0.5 seconds required"⟩ ∧
      tooShortMsgEmbed w.length =
        "Audio too short. Minimum 0.5 seconds required, got " ++
          fmt2 w.length ++ " seconds" := by
  refine ⟨?_, ?_, rfl⟩ <;>
    simp [create_embedding, create_embedding_raw, hct, hbody, hdec, hshort]

/-- Witness for C2 amended: a 160-sample (0.01 s) decode is rejected on
`/embed` with the duration `0.01` in the message. -/
theorem c2_short_audio_amended_witness :
    create_embedding (fun _ => .ok ⟨[List.replicate 160 0], 16000⟩)
        (fun _ l => l) none (fun _ => 0) (some "audio/wav") [1] =
      .error ⟨400, tooShortMsgEmbed
        (peakNormalize (List.replicate 160 (0 : ℚ))).length⟩ ∧
    tooShortMsgEmbed (peakNormalize (List.replicate 160 (0 : ℚ))).length =
      "Audio too short. Minimum 0.5 seconds required, got 0.01 seconds" := by
  constructor
  · exact (c2_short_audio_amended (fun _ => .ok ⟨[List.replicate 160 0], 16000⟩)
      (fun _ l => l) none (fun _ => 0) (some "audio/wav") [1]
      (peakNormalize (List.replicate 160 (0 : ℚ))) (by decide) (by simp) rfl
      (by simp only [peakNormalize, List.length_map, List.length_replicate]
          decide)).1
  · have h : (peakNormalize (List.replicate 160 (0 : ℚ))).length = 160 := by
      simp [peakNormalize]
    rw [h]
    rfl

/-- Counterexample to claim C5 as stated: a model output of dimension 2
(≠ 192) on `/embed-raw` yields a successful response and no warning at all —
`/embed-raw` performs no dimensionality check, so no non-fatal warning is
emitted on that entry point. -/
theorem c5_dimension_counterexample :
    create_embedding_raw (fun _ => .ok ⟨[List.replicate 8000 0], 16000⟩)
        (fun _ l => l) (some (fun _ => [3, 4])) (fun _ => 5) [1] =
      .ok (⟨l2normalize [3, 4] 5, true, 2⟩, false) ∧
    (l2normalize [3, 4] 5).length = 2 ∧ (2 : ℕ) < 192 := by
  have hlen : ¬ (peakNormalize (List.replicate 8000 (0 : ℚ))).length < 8000 := by
    simp only [peakNormalize, List.length_map, List.length_replicate]
    decide
  have hdec : preprocess_audio (fun _ => .ok ⟨[List.replicate 8000 0], 16000⟩)
      (fun _ l => l) [1] = .ok (peakNormalize (List.replicate 8000 (0 : ℚ))) := rfl
  refine ⟨?_, by simp [l2normalize], by norm_num⟩
  simp [create_embedding_raw, hdec, generate_embedding, hlen, l2normalize,
    -List.reduceReplicate]

/-- Claim C5 amended. A dimensionality mismatch is never a rejection
condition: when the pipeline reaches postprocessing, `/embed` answers with
`success = true` and logs the warning exactly when the dimension differs
from 192, while `/embed-raw` answers with `success = true` and performs no
dimensionality check at all (it never warns). -/
theorem c5_dimension_amended (dec : Decoder) (res : ℕ → List ℚ → List ℚ)
    (f : List ℚ → List ℚ) (normF : List ℚ → ℚ)
    (ct : Option String) (body : List ℕ) (w : List ℚ)
    (hct : contentTypeOk ct = true) (hbody : body.length ≠ 0)
    (hdec : preprocess_audio dec res body = .ok w)
    (hlen : ¬ w.length < 8000) :
    create_embedding dec res (some f) normF ct body =
        .ok (⟨l2normalize (f w) (normF (f w)), true,
              "Successfully generated " ++
                toString (l2normalize (f w) (normF (f w))).length ++
                "-dimensional embedding"⟩,
             (l2normalize (f w) (normF (f w))).length != 192) ∧
      create_embedding_raw dec res (some f) normF body =
        .ok (⟨l2normalize (f w) (normF (f w)), true,
              (l2normalize (f w) (normF (f w))).length⟩, false) := by
  constructor <;>
    simp [create_embedding, create_embedding_raw, generate_embedding,
      hct, hbody, hdec, hlen]

/-- Witness for C5 amended: a 2-dimensional model output is returned with
`success = true`, and on `/embed` the mismatch warning fires. -/
theorem c5_dimension_amended_witness :
    create_embedding (fun _ => .ok ⟨[List.replicate 8000 0], 16000⟩)
        (fun _ l => l) (some (fun _ => [3, 4])) (fun _ => 5)
        (some "audio/wav") [1] =
      .ok (⟨l2normalize [3, 4] 5, true,
            "Successfully generated " ++ toString (l2normalize [3, 4] 5).length ++
              "-dimensional embedding"⟩,
           (l2normalize [3, 4] 5).length != 192) := by
  exact (c5_dimension_amended (fun _ => .ok ⟨[List.replicate 8000 0], 16000⟩)
    (fun _ l => l) (fun _ => [3, 4]) (fun _ => 5) (some "audio/wav") [1]
    (peakNormalize (List.replicate 8000 (0 : ℚ))) (by decide) (by simp) rfl
    (by simp only [peakNormalize, List.length_map, List.length_replicate]
        decide)).1

/-- Claim C6. A request that passes validation while the model handle is
`None` fails fast with status 500 on both endpoints (the in-handler 500
`HTTPException` is rewrapped by `generate_embedding`'s own blanket
exception clause, still as a 500). -/
theorem c6_model_not_loaded (dec : Decoder) (res : ℕ → List ℚ → List ℚ)
    (normF : List ℚ → ℚ) (ct : Option String) (body : List ℕ) (w : List ℚ)
    (hct : contentTypeOk ct = true) (hbody : body.length ≠ 0)
    (hdec : preprocess_audio dec res body = .ok w)
    (hlen : ¬ w.length < 8000) :
    create_embedding dec res none normF ct body =
        .error ⟨500, "Embedding generation failed: 500: Model not loaded"⟩ ∧
      create_embedding_raw dec res none normF body =
        .error ⟨500, "Embedding generation failed: 500: Model not loaded"⟩ := by
  constructor <;>
    simp [create_embedding, create_embedding_raw, generate_embedding,
      hct, hbody, hdec, hlen]

/-- Witness for C6: a valid 8000-sample request against an unloaded model
receives the 500 answer on `/embed`. -/
theorem c6_model_not_loaded_witness :
    create_embedding (fun _ => .ok ⟨[List.replicate 8000 0], 16000⟩)
        (fun _ l => l) none (fun _ => 0) (some "audio/wav") [1] =
      .error ⟨500, "Embedding generation failed: 500: Model not loaded"⟩ :=
  (c6_model_not_loaded (fun _ => .ok ⟨[List.replicate 8000 0], 16000⟩)
    (fun _ l => l) (fun _ => 0) (some "audio/wav") [1]
    (peakNormalize (List.replicate 8000 (0 : ℚ))) (by decide) (by simp) rfl
    (by simp only [peakNormalize, List.length_map, List.length_replicate]
        decide)).1

/-- Counterexample to claim C7 as stated: the empty-payload messages are
`"Empty audio file"` and `"Empty audio data"`, which do not contain the
lowercase string `"empty"` the claim asks for (the code capitalizes it). -/
theorem c7_empty_counterexample :
    create_embedding (fun _ => .error "x") (fun _ l => l) none (fun _ => 0)
        (some "audio/wav") [] = .error ⟨400, "Empty audio file"⟩ ∧
      create_embedding_raw (fun _ => .error "x") (fun _ l => l) none
        (fun _ => 0) [] = .error ⟨400, "Empty audio data"⟩ ∧
      containsStr "Empty audio file" "empty" = false ∧
      containsStr "Empty audio data" "empty" = false := by
  refine ⟨?_, ?_, by decide, by decide⟩
  · simp [create_embedding]
    decide
  · simp [create_embedding_raw]

/-- Claim C7 amended. An empty byte payload is answered 400 on both
endpoints with messages containing `"Empty"` (capitalized — case
insensitively, "empty"), and the answer is the same for every decoder,
resampler and model: the pipeline is not run. -/
theorem c7_empty_amended (dec : Decoder) (res : ℕ → List ℚ → List ℚ)
    (m : Option (List ℚ → List ℚ)) (normF : List ℚ → ℚ)
    (ct : Option String) (hct : contentTypeOk ct = true) :
    create_embedding dec res m normF ct [] = .error ⟨400, "Empty audio file"⟩ ∧
      create_embedding_raw dec res m normF [] =
        .error ⟨400, "Empty audio data"⟩ ∧
      containsStr "Empty audio file" "Empty" = true ∧
      containsStr "Empty audio data" "Empty" = true := by
  refine ⟨?_, ?_, by decide, by decide⟩
  · simp [create_embedding, hct]
  · simp [create_embedding_raw]

/-- Witness for C7 amended at a concrete decoder, model and content type. -/
theorem c7_empty_amended_witness :
    create_embedding (fun _ => .error "x") (fun _ l => l)
        (some (fun _ => [1])) (fun _ => 0) (some "audio/wav") [] =
      .error ⟨400, "Empty audio file"⟩ :=
  (c7_empty_amended (fun _ => .error "x") (fun _ l => l) (some (fun _ => [1]))
    (fun _ => 0) (some "audio/wav") (by decide)).1

/-- Claim C10. The `/embed` checks run in source order: for every payload a
failing content-type check answers with the content-type error (so an empty
upload with a non-audio or absent tag gets the content-type message, not
the empty-input message), and with an acceptable tag an empty payload gets
the empty-input message. -/
theorem c10_check_order (dec : Decoder) (res : ℕ → List ℚ → List ℚ)
    (m : Option (List ℚ → List ℚ)) (normF : List ℚ → ℚ)
    (ct : Option String) (body : List ℕ) :
    (contentTypeOk ct = false →
        create_embedding dec res m normF ct body = .error ctErr) ∧
      (contentTypeOk ct = true →
        create_embedding dec res m normF ct [] =
          .error ⟨400, "Empty audio file"⟩) := by
  constructor
  · intro h
    simp [create_embedding, h]
  · intro h
    simp [create_embedding, h]

/-- Witness for C10: an empty upload tagged `text/plain` receives the
content-type error, not the empty-input error. -/
theorem c10_check_order_witness :
    create_embedding (fun _ => .error "x") (fun _ l => l) none (fun _ => 0)
      (some "text/plain") [] = .error ctErr :=
  (c10_check_order (fun _ => .error "x") (fun _ l => l) none (fun _ => 0)
    (some "text/plain") []).1 (by decide)

end VoiceEmbed
